import Mathlib

/-!
Verification development for the remote-desktop relay broker (`app.py`).

The broker keeps three global dictionaries:
  connected_clients : client_id -> info (socket_id, last_seen, online, metadata, preview)
  web_viewers       : viewer sid -> (socket_id, watching_client, joined_at)
and a set of SocketIO event handlers that mutate them and emit messages.

We embed the mutable dictionaries as association lists with Python-dict
update semantics (update-in-place if the key exists, append otherwise),
embed each event handler as a pure function from server state and message
to `Except` of (new state, list of emitted messages) — `Except.error`
standing for a Python `KeyError` raised by a `data['k']` access on a
missing key — and prove properties of event sequences.
-/

namespace Relay

/-- Primitive JSON-ish values carried in message payloads. -/
inductive PVal where
  | s (v : String)
  | b (v : Bool)
  | n (v : Nat)
  | null
deriving DecidableEq

/-- A message payload dictionary: string keys to primitive values. -/
abbrev Dict := List (String × PVal)

/-- First-match lookup in an association list (Python `d[k]` / `d.get(k)`). -/
def getKey {α β : Type} [DecidableEq α] (l : List (α × β)) (k : α) : Option β :=
  match l with
  | [] => none
  | (a, b) :: t => if a = k then some b else getKey t k

/-- Key membership in an association list (Python `k in d`). -/
def hasKey {α β : Type} [DecidableEq α] (l : List (α × β)) (k : α) : Bool :=
  match l with
  | [] => false
  | (a, _) :: t => if a = k then true else hasKey t k

/-- Python dict assignment `d[k] = v`: replace in place if the key exists
(keeping its position), otherwise append at the end. -/
def setKey {α β : Type} [DecidableEq α] (l : List (α × β)) (k : α) (v : β) : List (α × β) :=
  match l with
  | [] => [(k, v)]
  | (a, b) :: t => if a = k then (k, v) :: t else (a, b) :: setKey t k v

/-- Python `del d[k]`: remove the (first) entry with the given key. -/
def eraseKey {α β : Type} [DecidableEq α] (l : List (α × β)) (k : α) : List (α × β) :=
  match l with
  | [] => []
  | (a, b) :: t => if a = k then t else (a, b) :: eraseKey t k

/-- Number of entries stored under a given key. -/
def countKey {α β : Type} [DecidableEq α] (l : List (α × β)) (k : α) : Nat :=
  match l with
  | [] => 0
  | (a, _) :: t => (if a = k then 1 else 0) + countKey t k

/-- The record stored in `connected_clients[client_id]`: the registration
`info` dict after the server sets `socket_id`, `last_seen`, `online`, plus
the `preview` key added later by the frame handler. -/
structure ClientInfo where
  socket_id : Nat
  last_seen : Nat
  online : Bool
  meta : Dict
  preview : Option String
deriving DecidableEq

/-- The record stored in `web_viewers[sid]`. -/
structure ViewerInfo where
  socket_id : Nat
  watching_client : String
  joined_at : Nat
deriving DecidableEq

/-- The broker's global mutable state. -/
structure ServerState where
  connected_clients : List (String × ClientInfo)
  web_viewers : List (Nat × ViewerInfo)
deriving DecidableEq

/-- Server start: both dictionaries empty. -/
def initState : ServerState := ⟨[], []⟩

/-- Where an emitted SocketIO message is sent: to one sid-room, or broadcast. -/
inductive Target where
  | sid (n : Nat)
  | broadcast
deriving DecidableEq

/-- Payload of an emitted message. -/
inductive OutPayload where
  | dict (d : Dict)
  | withInfo (d : Dict) (info : ClientInfo)
  | clientList (m : List (String × ClientInfo))
deriving DecidableEq

/-- One emitted SocketIO message. -/
structure Out where
  target : Target
  event : String
  payload : OutPayload
deriving DecidableEq

/-- A Python exception escaping a handler (`data['k']` with `k` absent). -/
inductive Err where
  | keyError (k : String)
deriving DecidableEq

/-- Incoming `client_register` message: `data['client_id']`, `data['info']`;
a `none` field stands for the key being absent from the dict. -/
structure RegisterMsg where
  client_id : Option String
  info : Option Dict
deriving DecidableEq

/-- Incoming `screen_frame_from_client` message fields. -/
structure FrameMsg where
  client_id : Option String
  preview : Option String
  image : Option String
  dimensions : Option String
deriving DecidableEq

/-- Incoming `viewer_join_client` message field. -/
structure JoinMsg where
  client_id : Option String
deriving DecidableEq

/-- `client_id in connected_clients and connected_clients[client_id]['online']`. -/
def agentOnline (st : ServerState) (cid : String) : Bool :=
  match getKey st.connected_clients cid with
  | some info => info.online
  | none => false

/-- Handler for `connect`: logs only, no state change, no emission. -/
def handle_connect (st : ServerState) (_sid : Nat) : ServerState × List Out :=
  (st, [])

/-- First loop of the `disconnect` handler, client dictionary part: the
first client whose `socket_id` matches is marked offline in place. -/
def disconnectClients (st : ServerState) (sid : Nat) : List (String × ClientInfo) :=
  match st.connected_clients.find? (fun p => decide (p.2.socket_id = sid)) with
  | some p => setKey st.connected_clients p.1 { p.2 with online := false }
  | none => st.connected_clients

/-- First loop of the `disconnect` handler, emission part: a
`client_disconnected` broadcast when a matching client was found. -/
def disconnectOuts (st : ServerState) (sid : Nat) : List Out :=
  match st.connected_clients.find? (fun p => decide (p.2.socket_id = sid)) with
  | some p =>
      [⟨Target.broadcast, "client_disconnected", OutPayload.dict [("client_id", PVal.s p.1)]⟩]
  | none => []

/-- Second loop of the `disconnect` handler: the first viewer whose
`socket_id` matches is deleted from `web_viewers`. -/
def disconnectViewers (st : ServerState) (sid : Nat) : List (Nat × ViewerInfo) :=
  match st.web_viewers.find? (fun p => decide (p.2.socket_id = sid)) with
  | some p => eraseKey st.web_viewers p.1
  | none => st.web_viewers

/-- Handler for `disconnect`: mark the first client whose `socket_id`
matches as offline (broadcasting `client_disconnected`), then delete the
first viewer whose `socket_id` matches. -/
def handle_disconnect (st : ServerState) (sid : Nat) : ServerState × List Out :=
  (⟨disconnectClients st sid, disconnectViewers st sid⟩, disconnectOuts st sid)

/-- Handler for `client_register`: store the info dict (with `socket_id`,
`last_seen`, `online` set by the server) under `client_id`, broadcast
`client_connected`, acknowledge with `registration_success`. -/
def handle_client_register (st : ServerState) (sid now : Nat) (msg : RegisterMsg) :
    Except Err (ServerState × List Out) :=
  match msg.client_id with
  | none => Except.error (Err.keyError "client_id")
  | some cid =>
    match msg.info with
    | none => Except.error (Err.keyError "info")
    | some m =>
      let info : ClientInfo := ⟨sid, now, true, m, none⟩
      Except.ok (⟨setKey st.connected_clients cid info, st.web_viewers⟩,
        [⟨Target.broadcast, "client_connected", OutPayload.withInfo [("client_id", PVal.s cid)] info⟩,
         ⟨Target.sid sid, "registration_success", OutPayload.dict [("client_id", PVal.s cid)]⟩])

/-- Preview branch of the frame handler, client dictionary part: when a
`preview` field is present and the client is registered, cache the preview
on its record. -/
def previewClients (st : ServerState) (cid : String) (pv : Option String) :
    List (String × ClientInfo) :=
  match pv with
  | some p =>
    match getKey st.connected_clients cid with
    | some info => setKey st.connected_clients cid { info with preview := some p }
    | none => st.connected_clients
  | none => st.connected_clients

/-- Preview branch of the frame handler, emission part: broadcast
`client_screen_preview` when the preview was cached. -/
def previewOuts (st : ServerState) (cid : String) (pv : Option String) : List Out :=
  match pv with
  | some p =>
    match getKey st.connected_clients cid with
    | some _ =>
      [⟨Target.broadcast, "client_screen_preview",
        OutPayload.dict [("client_id", PVal.s cid), ("image", PVal.s p)]⟩]
    | none => []
  | none => []

/-- Image branch of the frame handler: forward a `screen_frame` to every
viewer whose `watching_client` equals the sender-declared `client_id`. -/
def frameOuts (st : ServerState) (cid : String) (img : Option String) (dims : Option String) :
    List Out :=
  match img with
  | some i =>
    (st.web_viewers.filter (fun p => decide (p.2.watching_client = cid))).map
      (fun p => ⟨Target.sid p.2.socket_id, "screen_frame",
        OutPayload.dict [("image", PVal.s i),
          ("dimensions", match dims with | some d => PVal.s d | none => PVal.null)]⟩)
  | none => []

/-- Handler for `screen_frame_from_client`: if a `preview` field is present
and the client is registered, cache it and broadcast `client_screen_preview`;
if an `image` field is present, forward a `screen_frame` to every viewer
whose `watching_client` equals the sender-declared `client_id`. -/
def handle_screen_frame_from_client (st : ServerState) (_sid : Nat) (msg : FrameMsg) :
    Except Err (ServerState × List Out) :=
  match msg.client_id with
  | none => Except.error (Err.keyError "client_id")
  | some cid =>
    Except.ok (⟨previewClients st cid msg.preview, st.web_viewers⟩,
      previewOuts st cid msg.preview ++ frameOuts st cid msg.image msg.dimensions)

/-- Handler for `request_client_list`: reply with the whole
`connected_clients` dictionary. -/
def handle_request_client_list (st : ServerState) (sid : Nat) : ServerState × List Out :=
  (st, [⟨Target.sid sid, "client_list", OutPayload.clientList st.connected_clients⟩])

/-- Handler for `viewer_join_client`: if the target client is registered and
online, record the viewer and acknowledge success; otherwise acknowledge
failure with the fixed message string, leaving state unchanged. -/
def handle_viewer_join_client (st : ServerState) (sid now : Nat) (msg : JoinMsg) :
    Except Err (ServerState × List Out) :=
  match msg.client_id with
  | none => Except.error (Err.keyError "client_id")
  | some cid =>
    if agentOnline st cid then
      Except.ok (⟨st.connected_clients, setKey st.web_viewers sid ⟨sid, cid, now⟩⟩,
        [⟨Target.sid sid, "viewer_joined",
          OutPayload.dict [("success", PVal.b true), ("client_id", PVal.s cid)]⟩])
    else
      Except.ok (st,
        [⟨Target.sid sid, "viewer_joined",
          OutPayload.dict [("success", PVal.b false), ("message", PVal.s "Client not available")]⟩])

/-- Handler for `request_screen_frame`: forward a `capture_screen` request
to the target client's socket when it is online. -/
def handle_request_screen_frame (st : ServerState) (sid : Nat) (d : Dict) :
    Except Err (ServerState × List Out) :=
  match getKey d "client_id" with
  | none => Except.error (Err.keyError "client_id")
  | some cv =>
    let quality := (getKey d "quality").getD (PVal.s "medium")
    match cv with
    | PVal.s cid =>
      match getKey st.connected_clients cid with
      | some info =>
        if info.online then
          Except.ok (st, [⟨Target.sid info.socket_id, "capture_screen",
            OutPayload.dict [("quality", quality), ("requester", PVal.n sid)]⟩])
        else Except.ok (st, [])
      | none => Except.ok (st, [])
    | _ => Except.ok (st, [])

/-- Handler for `quality_change`: forward the new quality to the target
client's socket when it is online. -/
def handle_quality_change (st : ServerState) (_sid : Nat) (d : Dict) :
    Except Err (ServerState × List Out) :=
  match getKey d "client_id" with
  | none => Except.error (Err.keyError "client_id")
  | some cv =>
    match getKey d "quality" with
    | none => Except.error (Err.keyError "quality")
    | some q =>
      match cv with
      | PVal.s cid =>
        match getKey st.connected_clients cid with
        | some info =>
          if info.online then
            Except.ok (st, [⟨Target.sid info.socket_id, "quality_change",
              OutPayload.dict [("quality", q)]⟩])
          else Except.ok (st, [])
        | none => Except.ok (st, [])
      | _ => Except.ok (st, [])

/-- Handler for `mouse_action`: forward the payload verbatim to the socket
of the client named by `data['client_id']` when that client is online. -/
def handle_mouse_action (st : ServerState) (_sid : Nat) (d : Dict) :
    Except Err (ServerState × List Out) :=
  match getKey d "client_id" with
  | none => Except.error (Err.keyError "client_id")
  | some (PVal.s cid) =>
    match getKey st.connected_clients cid with
    | some info =>
      if info.online then
        Except.ok (st, [⟨Target.sid info.socket_id, "mouse_action", OutPayload.dict d⟩])
      else Except.ok (st, [])
    | none => Except.ok (st, [])
  | some _ => Except.ok (st, [])

/-- Handler for `key_action`: same routing as `mouse_action`. -/
def handle_key_action (st : ServerState) (_sid : Nat) (d : Dict) :
    Except Err (ServerState × List Out) :=
  match getKey d "client_id" with
  | none => Except.error (Err.keyError "client_id")
  | some (PVal.s cid) =>
    match getKey st.connected_clients cid with
    | some info =>
      if info.online then
        Except.ok (st, [⟨Target.sid info.socket_id, "key_action", OutPayload.dict d⟩])
      else Except.ok (st, [])
    | none => Except.ok (st, [])
  | some _ => Except.ok (st, [])

/-- Handler for `save_text`: same routing as `mouse_action`. -/
def handle_save_text (st : ServerState) (_sid : Nat) (d : Dict) :
    Except Err (ServerState × List Out) :=
  match getKey d "client_id" with
  | none => Except.error (Err.keyError "client_id")
  | some (PVal.s cid) =>
    match getKey st.connected_clients cid with
    | some info =>
      if info.online then
        Except.ok (st, [⟨Target.sid info.socket_id, "save_text", OutPayload.dict d⟩])
      else Except.ok (st, [])
    | none => Except.ok (st, [])
  | some _ => Except.ok (st, [])

/-- Handler for `trigger_human_typing`: forward an empty payload to the
target client's socket when it is online. -/
def handle_trigger_human_typing (st : ServerState) (_sid : Nat) (d : Dict) :
    Except Err (ServerState × List Out) :=
  match getKey d "client_id" with
  | none => Except.error (Err.keyError "client_id")
  | some (PVal.s cid) =>
    match getKey st.connected_clients cid with
    | some info =>
      if info.online then
        Except.ok (st, [⟨Target.sid info.socket_id, "trigger_human_typing", OutPayload.dict []⟩])
      else Except.ok (st, [])
    | none => Except.ok (st, [])
  | some _ => Except.ok (st, [])

/-- Handler for `text_saved_response`: forward `text_saved` to every viewer
watching the named client. -/
def handle_text_saved_response (st : ServerState) (_sid : Nat) (d : Dict) :
    Except Err (ServerState × List Out) :=
  match getKey d "client_id" with
  | none => Except.error (Err.keyError "client_id")
  | some cv =>
    let outs :=
      (st.web_viewers.filter (fun p =>
        match cv with
        | PVal.s cid => decide (p.2.watching_client = cid)
        | _ => false)).map
        (fun p => ⟨Target.sid p.2.socket_id, "text_saved", OutPayload.dict d⟩)
    Except.ok (st, outs)

/-- Handler for `typing_status_update`: forward `typing_status` to every
viewer watching the named client. -/
def handle_typing_status_update (st : ServerState) (_sid : Nat) (d : Dict) :
    Except Err (ServerState × List Out) :=
  match getKey d "client_id" with
  | none => Except.error (Err.keyError "client_id")
  | some cv =>
    let outs :=
      (st.web_viewers.filter (fun p =>
        match cv with
        | PVal.s cid => decide (p.2.watching_client = cid)
        | _ => false)).map
        (fun p => ⟨Target.sid p.2.socket_id, "typing_status", OutPayload.dict d⟩)
    Except.ok (st, outs)

/-- One inbound transport event, tagged with the sender's sid (and, where
the handler reads the clock, the current time). -/
inductive Event where
  | connect (sid : Nat)
  | disconnect (sid : Nat)
  | clientRegister (sid now : Nat) (msg : RegisterMsg)
  | screenFrame (sid : Nat) (msg : FrameMsg)
  | requestClientList (sid : Nat)
  | viewerJoin (sid now : Nat) (msg : JoinMsg)
  | requestScreenFrame (sid : Nat) (d : Dict)
  | qualityChange (sid : Nat) (d : Dict)
  | mouseAction (sid : Nat) (d : Dict)
  | keyAction (sid : Nat) (d : Dict)
  | saveText (sid : Nat) (d : Dict)
  | triggerHumanTyping (sid : Nat) (d : Dict)
  | textSavedResponse (sid : Nat) (d : Dict)
  | typingStatusUpdate (sid : Nat) (d : Dict)

/-- Dispatch one event to its handler. -/
def step (st : ServerState) (e : Event) : Except Err (ServerState × List Out) :=
  match e with
  | Event.connect sid => Except.ok (handle_connect st sid)
  | Event.disconnect sid => Except.ok (handle_disconnect st sid)
  | Event.clientRegister sid now msg => handle_client_register st sid now msg
  | Event.screenFrame sid msg => handle_screen_frame_from_client st sid msg
  | Event.requestClientList sid => Except.ok (handle_request_client_list st sid)
  | Event.viewerJoin sid now msg => handle_viewer_join_client st sid now msg
  | Event.requestScreenFrame sid d => handle_request_screen_frame st sid d
  | Event.qualityChange sid d => handle_quality_change st sid d
  | Event.mouseAction sid d => handle_mouse_action st sid d
  | Event.keyAction sid d => handle_key_action st sid d
  | Event.saveText sid d => handle_save_text st sid d
  | Event.triggerHumanTyping sid d => handle_trigger_human_typing st sid d
  | Event.textSavedResponse sid d => handle_text_saved_response st sid d
  | Event.typingStatusUpdate sid d => handle_typing_status_update st sid d

/-- The state after one event; a handler that raises leaves state as it was
(every handler raises, if at all, before its first mutation). -/
def stepState (st : ServerState) (e : Event) : ServerState :=
  match step st e with
  | Except.ok r => r.1
  | Except.error _ => st

/-- The messages emitted while handling one event. -/
def stepOuts (st : ServerState) (e : Event) : List Out :=
  match step st e with
  | Except.ok r => r.2
  | Except.error _ => []

/-- Run a sequence of events from a starting state. -/
def run (st : ServerState) (es : List Event) : ServerState :=
  es.foldl stepState st

/-- The list of rooms an emission batch is addressed to. -/
def relayTargets (r : Except Err (ServerState × List Out)) : List Target :=
  match r with
  | Except.ok p => p.2.map (fun o => o.target)
  | Except.error _ => []

/-- The delivery target an input relay resolves for a client identifier:
the client's socket when it is registered and online, nothing otherwise. -/
def agentTargets (st : ServerState) (cid : String) : List Target :=
  match getKey st.connected_clients cid with
  | some info => if info.online then [Target.sid info.socket_id] else []
  | none => []

/-- Whether the `viewer_joined` acknowledgment emitted for a join request
carries `success: true`. -/
def joinSuccess (st : ServerState) (sid now : Nat) (cid : String) : Bool :=
  (stepOuts st (Event.viewerJoin sid now ⟨some cid⟩)).any (fun o =>
    match o.payload with
    | OutPayload.dict d2 => decide (getKey d2 "success" = some (PVal.b true))
    | _ => false)

/-- A field of the (unique) `viewer_joined` acknowledgment payload. -/
def joinReplyField (st : ServerState) (sid now : Nat) (cid : String) (k : String) : Option PVal :=
  match stepOuts st (Event.viewerJoin sid now ⟨some cid⟩) with
  | [o] =>
    match o.payload with
    | OutPayload.dict d2 => getKey d2 k
    | _ => none
  | _ => none

/-- Modelled from the spec for refinement comparison, following its words:
pairing "succeeds only if the viewer is authenticated (externally verified)
and the target AgentSession exists and is online". The `authenticated` flag
is the external auth collaborator's verdict for the joining viewer. -/
def joinRoom_spec_success (authenticated : Bool) (st : ServerState) (cid : String) : Bool :=
  authenticated && agentOnline st cid

/-- Example state: agent "a" registered from socket 1. -/
def exReg : ServerState :=
  run initState [Event.clientRegister 1 0 ⟨some "a", some []⟩]

/-- Example state: agent "a" registered, viewer on socket 2 watching it. -/
def exRegJoin : ServerState :=
  run exReg [Event.viewerJoin 2 1 ⟨some "a"⟩]

/-- An input-event payload addressed to agent "a". -/
def dA : Dict := [("client_id", PVal.s "a")]

/-- Example state: agent "pc" registered from socket 1, viewer on socket 2
watching it, then the agent socket disconnected. -/
def c3St : ServerState :=
  run initState
    [Event.clientRegister 1 0 ⟨some "pc", some []⟩,
     Event.viewerJoin 2 1 ⟨some "pc"⟩,
     Event.disconnect 1]

/-- An input-event payload addressed to agent "pc". -/
def dPC : Dict := [("client_id", PVal.s "pc")]

/-- A frame message from agent "pc" carrying an image and no preview. -/
def msgPC : FrameMsg := ⟨some "pc", none, some "x", none⟩

/-- Example state: agent "a" registered from socket 1, viewer on socket 2
watching it (sockets 1 and 2 are thus both registered). -/
def c5St0 : ServerState :=
  run initState [Event.clientRegister 1 0 ⟨some "a", some []⟩, Event.viewerJoin 2 1 ⟨some "a"⟩]

/-- Scenario state: agent "pc-1" registered from socket 1; viewers on
sockets 2 and 3 joined its room. -/
def c7St1 : ServerState :=
  run initState
    [Event.clientRegister 1 0 ⟨some "pc-1", some []⟩,
     Event.viewerJoin 2 1 ⟨some "pc-1"⟩,
     Event.viewerJoin 3 2 ⟨some "pc-1"⟩]

/-- Scenario state: `c7St1` after viewer socket 2 disconnected. -/
def c7St2 : ServerState :=
  run c7St1 [Event.disconnect 2]

/-- A registration event for agent "pc" from socket 1. -/
def regPC : Event := Event.clientRegister 1 0 ⟨some "pc", some []⟩

end Relay

namespace Relay

theorem getKey_setKey_self {α β : Type} [DecidableEq α] (l : List (α × β)) (k : α) (v : β) :
    getKey (setKey l k v) k = some v := by
  induction l with
  | nil => simp [setKey, getKey]
  | cons p t ih =>
    obtain ⟨a, b⟩ := p
    by_cases hak : a = k <;> simp [setKey, hak, getKey, ih]

theorem getKey_setKey_ne {α β : Type} [DecidableEq α] (l : List (α × β)) (k c : α) (v : β)
    (h : c ≠ k) : getKey (setKey l k v) c = getKey l c := by
  induction l with
  | nil => simp [setKey, getKey, Ne.symm h]
  | cons p t ih =>
    obtain ⟨a, b⟩ := p
    by_cases hak : a = k
    · subst hak
      simp [setKey, getKey, Ne.symm h]
    · simp [setKey, hak, getKey, ih]

theorem hasKey_eq_isSome_getKey {α β : Type} [DecidableEq α] (l : List (α × β)) (k : α) :
    hasKey l k = (getKey l k).isSome := by
  induction l with
  | nil => simp [hasKey, getKey]
  | cons p t ih =>
    obtain ⟨a, b⟩ := p
    by_cases hak : a = k <;> simp [hasKey, getKey, hak, ih]

theorem hasKey_setKey_self {α β : Type} [DecidableEq α] (l : List (α × β)) (k : α) (v : β) :
    hasKey (setKey l k v) k = true := by
  rw [hasKey_eq_isSome_getKey, getKey_setKey_self]
  rfl

theorem hasKey_setKey_of_hasKey {α β : Type} [DecidableEq α] (l : List (α × β)) (k c : α) (v : β)
    (h : hasKey l c = true) : hasKey (setKey l k v) c = true := by
  by_cases hck : c = k
  · subst hck
    exact hasKey_setKey_self l c v
  · rw [hasKey_eq_isSome_getKey, getKey_setKey_ne l k c v hck, ← hasKey_eq_isSome_getKey]
    exact h

theorem countKey_setKey_ne {α β : Type} [DecidableEq α] (l : List (α × β)) (k c : α) (v : β)
    (h : c ≠ k) : countKey (setKey l k v) c = countKey l c := by
  induction l with
  | nil => simp [setKey, countKey, Ne.symm h]
  | cons p t ih =>
    obtain ⟨a, b⟩ := p
    by_cases hak : a = k
    · subst hak
      simp [setKey, countKey]
    · simp [setKey, hak, countKey, ih]

theorem countKey_setKey_self_le {α β : Type} [DecidableEq α] (l : List (α × β)) (k : α) (v : β)
    (h : countKey l k ≤ 1) : countKey (setKey l k v) k ≤ 1 := by
  induction l with
  | nil => simp [setKey, countKey]
  | cons p t ih =>
    obtain ⟨a, b⟩ := p
    by_cases hak : a = k
    · subst hak
      simpa [setKey, countKey] using h
    · have ht : countKey t k ≤ 1 := by simpa [countKey, hak] using h
      simpa [setKey, hak, countKey] using ih ht

theorem countKey_setKey_le_one {α β : Type} [DecidableEq α] (l : List (α × β)) (k c : α) (v : β)
    (h : countKey l c ≤ 1) : countKey (setKey l k v) c ≤ 1 := by
  by_cases hck : c = k
  · subst hck
    exact countKey_setKey_self_le l c v h
  · rw [countKey_setKey_ne l k c v hck]
    exact h

theorem run_append (st : ServerState) (es es2 : List Event) :
    run st (es ++ es2) = run (run st es) es2 := by
  simp [run, List.foldl_append]

theorem run_cons (st : ServerState) (e : Event) (es : List Event) :
    run st (e :: es) = run (stepState st e) es := rfl

end Relay

namespace Relay

theorem stepState_connect (st : ServerState) (sid : Nat) :
    stepState st (Event.connect sid) = st := rfl

theorem stepState_requestClientList (st : ServerState) (sid : Nat) :
    stepState st (Event.requestClientList sid) = st := rfl

theorem stepState_mouseAction (st : ServerState) (sid : Nat) (d : Dict) :
    stepState st (Event.mouseAction sid d) = st := by
  simp only [stepState, step, handle_mouse_action]
  cases hg : getKey d "client_id" with
  | none => rfl
  | some v =>
    cases v with
    | s cid =>
      cases hc : getKey st.connected_clients cid with
      | none => simp [hc]
      | some info => cases ho : info.online <;> simp [hc, ho]
    | b x => rfl
    | n x => rfl
    | null => rfl

theorem stepState_keyAction (st : ServerState) (sid : Nat) (d : Dict) :
    stepState st (Event.keyAction sid d) = st := by
  simp only [stepState, step, handle_key_action]
  cases hg : getKey d "client_id" with
  | none => rfl
  | some v =>
    cases v with
    | s cid =>
      cases hc : getKey st.connected_clients cid with
      | none => simp [hc]
      | some info => cases ho : info.online <;> simp [hc, ho]
    | b x => rfl
    | n x => rfl
    | null => rfl

theorem stepState_saveText (st : ServerState) (sid : Nat) (d : Dict) :
    stepState st (Event.saveText sid d) = st := by
  simp only [stepState, step, handle_save_text]
  cases hg : getKey d "client_id" with
  | none => rfl
  | some v =>
    cases v with
    | s cid =>
      cases hc : getKey st.connected_clients cid with
      | none => simp [hc]
      | some info => cases ho : info.online <;> simp [hc, ho]
    | b x => rfl
    | n x => rfl
    | null => rfl

theorem stepState_triggerHumanTyping (st : ServerState) (sid : Nat) (d : Dict) :
    stepState st (Event.triggerHumanTyping sid d) = st := by
  simp only [stepState, step, handle_trigger_human_typing]
  cases hg : getKey d "client_id" with
  | none => rfl
  | some v =>
    cases v with
    | s cid =>
      cases hc : getKey st.connected_clients cid with
      | none => simp [hc]
      | some info => cases ho : info.online <;> simp [hc, ho]
    | b x => rfl
    | n x => rfl
    | null => rfl

theorem stepState_requestScreenFrame (st : ServerState) (sid : Nat) (d : Dict) :
    stepState st (Event.requestScreenFrame sid d) = st := by
  simp only [stepState, step, handle_request_screen_frame]
  cases hg : getKey d "client_id" with
  | none => rfl
  | some v =>
    cases v with
    | s cid =>
      cases hc : getKey st.connected_clients cid with
      | none => simp [hc]
      | some info => cases ho : info.online <;> simp [hc, ho]
    | b x => rfl
    | n x => rfl
    | null => rfl

theorem stepState_qualityChange (st : ServerState) (sid : Nat) (d : Dict) :
    stepState st (Event.qualityChange sid d) = st := by
  simp only [stepState, step, handle_quality_change]
  cases hg : getKey d "client_id" with
  | none => rfl
  | some v =>
    cases hq : getKey d "quality" with
    | none => simp [hq]
    | some q =>
      cases v with
      | s cid =>
        cases hc : getKey st.connected_clients cid with
        | none => simp [hq, hc]
        | some info => cases ho : info.online <;> simp [hq, hc, ho]
      | b x => simp [hq]
      | n x => simp [hq]
      | null => simp [hq]

theorem stepState_textSavedResponse (st : ServerState) (sid : Nat) (d : Dict) :
    stepState st (Event.textSavedResponse sid d) = st := by
  simp only [stepState, step, handle_text_saved_response]
  cases hg : getKey d "client_id" with
  | none => rfl
  | some v => rfl

theorem stepState_typingStatusUpdate (st : ServerState) (sid : Nat) (d : Dict) :
    stepState st (Event.typingStatusUpdate sid d) = st := by
  simp only [stepState, step, handle_typing_status_update]
  cases hg : getKey d "client_id" with
  | none => rfl
  | some v => rfl

theorem clients_stepState_viewerJoin (st : ServerState) (sid now : Nat) (msg : JoinMsg) :
    (stepState st (Event.viewerJoin sid now msg)).connected_clients = st.connected_clients := by
  simp only [stepState, step, handle_viewer_join_client]
  cases hm : msg.client_id with
  | none => rfl
  | some cid => cases ho : agentOnline st cid <;> simp [ho]

theorem clients_stepState (st : ServerState) (e : Event) :
    (stepState st e).connected_clients = st.connected_clients ∨
    ∃ k v, (stepState st e).connected_clients = setKey st.connected_clients k v := by
  cases e with
  | connect sid => exact Or.inl rfl
  | disconnect sid =>
    simp only [stepState, step, handle_disconnect, disconnectClients]
    cases hf : st.connected_clients.find? (fun p => decide (p.2.socket_id = sid)) with
    | none => exact Or.inl rfl
    | some p =>
      exact Or.inr (Exists.intro p.1 (Exists.intro { p.2 with online := false } (by simp [hf])))
  | clientRegister sid now msg =>
    simp only [stepState, step, handle_client_register]
    cases hm : msg.client_id with
    | none => exact Or.inl rfl
    | some cid =>
      cases hi : msg.info with
      | none => exact Or.inl rfl
      | some m =>
        exact Or.inr (Exists.intro cid (Exists.intro (ClientInfo.mk sid now true m none) rfl))
  | screenFrame sid msg =>
    simp only [stepState, step, handle_screen_frame_from_client]
    cases hm : msg.client_id with
    | none => exact Or.inl rfl
    | some cid =>
      simp only [previewClients]
      cases hp : msg.preview with
      | none => exact Or.inl rfl
      | some p =>
        cases hc : getKey st.connected_clients cid with
        | none => exact Or.inl (by simp [hc])
        | some info =>
          exact Or.inr (Exists.intro cid (Exists.intro { info with preview := some p } (by simp [hc])))
  | requestClientList sid => exact Or.inl rfl
  | viewerJoin sid now msg => exact Or.inl (clients_stepState_viewerJoin st sid now msg)
  | requestScreenFrame sid d => exact Or.inl (by rw [stepState_requestScreenFrame])
  | qualityChange sid d => exact Or.inl (by rw [stepState_qualityChange])
  | mouseAction sid d => exact Or.inl (by rw [stepState_mouseAction])
  | keyAction sid d => exact Or.inl (by rw [stepState_keyAction])
  | saveText sid d => exact Or.inl (by rw [stepState_saveText])
  | triggerHumanTyping sid d => exact Or.inl (by rw [stepState_triggerHumanTyping])
  | textSavedResponse sid d => exact Or.inl (by rw [stepState_textSavedResponse])
  | typingStatusUpdate sid d => exact Or.inl (by rw [stepState_typingStatusUpdate])

theorem countKey_clients_run (st : ServerState) (es : List Event)
    (h : ∀ c, countKey st.connected_clients c ≤ 1) :
    ∀ c, countKey (run st es).connected_clients c ≤ 1 := by
  induction es generalizing st with
  | nil => exact h
  | cons e t ih =>
    have hstep : ∀ c, countKey (stepState st e).connected_clients c ≤ 1 := by
      intro c
      rcases clients_stepState st e with heq | heq
      · rw [heq]
        exact h c
      · obtain ⟨k, v, heq2⟩ := heq
        rw [heq2]
        exact countKey_setKey_le_one _ _ _ _ (h c)
    exact ih (stepState st e) hstep

theorem hasKey_clients_run (st : ServerState) (es : List Event) (cid : String)
    (h : hasKey st.connected_clients cid = true) :
    hasKey (run st es).connected_clients cid = true := by
  induction es generalizing st with
  | nil => exact h
  | cons e t ih =>
    have hstep : hasKey (stepState st e).connected_clients cid = true := by
      rcases clients_stepState st e with heq | heq
      · rw [heq]
        exact h
      · obtain ⟨k, v, heq2⟩ := heq
        rw [heq2]
        exact hasKey_setKey_of_hasKey _ _ _ _ h
    exact ih (stepState st e) hstep

end Relay

namespace Relay

/-- C1: for every sequence of events, the registry maps each identifier to
at most one (online) record, and a `client_register` for an identifier
supersedes any prior record wholesale: afterwards the identifier maps to
exactly the fresh record carrying the new connection handle (no merging
with the prior record). -/
theorem C1_at_most_one_agent_per_identifier (es : List Event) (cid cid2 : String)
    (sid now : Nat) (m : Dict) :
    countKey (run initState es).connected_clients cid ≤ 1 ∧
    getKey (run initState
        (es ++ [Event.clientRegister sid now ⟨some cid2, some m⟩])).connected_clients cid2 =
      some ⟨sid, now, true, m, none⟩ := by
  constructor
  · exact countKey_clients_run initState es (fun c => by simp [initState, countKey]) cid
  · rw [run_append]
    show getKey (stepState (run initState es)
      (Event.clientRegister sid now ⟨some cid2, some m⟩)).connected_clients cid2 = _
    simp only [stepState, step, handle_client_register]
    exact getKey_setKey_self _ _ _

/-- C10: once an identifier is registered, every subsequent event sequence
preserves a registry entry for it (disconnect only flips `online`, nothing
deletes agent records), and the client-list query returns the whole
registry, offline records included. -/
theorem C10_agent_records_never_deleted (st : ServerState) (es : List Event) (cid : String)
    (sid : Nat)
    (h : hasKey st.connected_clients cid = true) :
    hasKey (run st es).connected_clients cid = true ∧
    stepOuts (run st es) (Event.requestClientList sid) =
      [⟨Target.sid sid, "client_list", OutPayload.clientList (run st es).connected_clients⟩] :=
  ⟨hasKey_clients_run st es cid h, rfl⟩

/-- Witness for C10: agent "pc" registered and then disconnected still has
a registry entry. -/
theorem C10_agent_records_never_deleted_witness :
    hasKey (run (stepState initState regPC) [Event.disconnect 1]).connected_clients "pc" = true :=
  (C10_agent_records_never_deleted (stepState initState regPC) [Event.disconnect 1] "pc" 9
    (by decide)).1

/-- C7: scenario — agent "pc-1" registers, viewers on sockets 2 and 3 join
its room; a frame from "pc-1" fans out to both; after viewer 2 disconnects
a subsequent frame is delivered only to viewer 3. -/
theorem C7_frame_fanout_scenario :
    stepOuts c7St1 (Event.screenFrame 1 ⟨some "pc-1", none, some "img", none⟩) =
      [⟨Target.sid 2, "screen_frame",
        OutPayload.dict [("image", PVal.s "img"), ("dimensions", PVal.null)]⟩,
       ⟨Target.sid 3, "screen_frame",
        OutPayload.dict [("image", PVal.s "img"), ("dimensions", PVal.null)]⟩] ∧
    stepOuts c7St2 (Event.screenFrame 1 ⟨some "pc-1", none, some "i2", none⟩) =
      [⟨Target.sid 3, "screen_frame",
        OutPayload.dict [("image", PVal.s "i2"), ("dimensions", PVal.null)]⟩] :=
  ⟨rfl, rfl⟩

end Relay

namespace Relay

/-- C5 counterexample: socket 2 is registered as a viewer in `c5St0`, yet a
`client_register` arriving on that same socket is accepted (the handler
emits `registration_success`, performs no cross-membership check) and
afterwards handle 2 is recorded both as agent "b" and as a viewer. -/
theorem C5_counterexample_dual_registration :
    hasKey (stepState c5St0 (Event.clientRegister 2 2 ⟨some "b", some []⟩)).connected_clients "b" =
      true ∧
    (getKey (stepState c5St0
        (Event.clientRegister 2 2 ⟨some "b", some []⟩)).connected_clients "b").map
      (fun i => i.socket_id) = some 2 ∧
    hasKey (stepState c5St0 (Event.clientRegister 2 2 ⟨some "b", some []⟩)).web_viewers 2 = true ∧
    (stepOuts c5St0 (Event.clientRegister 2 2 ⟨some "b", some []⟩)).map (fun o => o.event) =
      ["client_connected", "registration_success"] :=
  ⟨rfl, rfl, rfl, rfl⟩

/-- C5 amended: registration performs no exclusivity check — even when the
connection handle is already registered as a viewer, `client_register` is
accepted (acknowledged with `registration_success`), records the handle as
an agent, and leaves the viewer record in place, so the handle ends up in
both registries. -/
theorem C5_registration_ignores_viewer_membership (st : ServerState) (sid now : Nat)
    (cid : String) (m : Dict)
    (h : hasKey st.web_viewers sid = true) :
    hasKey (stepState st (Event.clientRegister sid now ⟨some cid, some m⟩)).connected_clients cid =
      true ∧
    hasKey (stepState st (Event.clientRegister sid now ⟨some cid, some m⟩)).web_viewers sid =
      true ∧
    (stepOuts st (Event.clientRegister sid now ⟨some cid, some m⟩)).map (fun o => o.event) =
      ["client_connected", "registration_success"] := by
  refine ⟨?_, ?_, rfl⟩
  · simp only [stepState, step, handle_client_register]
    exact hasKey_setKey_self _ _ _
  · simp only [stepState, step, handle_client_register]
    exact h

/-- Witness for C5 amended: in `c5St0` socket 2 is a viewer; after it
registers as agent "c" it is still recorded as a viewer. -/
theorem C5_registration_ignores_viewer_membership_witness :
    hasKey (stepState c5St0 (Event.clientRegister 2 3 ⟨some "c", some []⟩)).web_viewers 2 = true :=
  (C5_registration_ignores_viewer_membership c5St0 2 3 "c" [] (by decide)).2.1

/-- C6 counterexample: joining the unknown identifier "ghost-agent" yields
a reply without any `reason` field — in particular not
`reason: "agent_not_found"` — only the fixed `message: "Client not
available"`; no room state is created. -/
theorem C6_counterexample_generic_failure_message :
    joinReplyField initState 5 0 "ghost-agent" "reason" = none ∧
    joinReplyField initState 5 0 "ghost-agent" "success" = some (PVal.b false) ∧
    joinReplyField initState 5 0 "ghost-agent" "message" =
      some (PVal.s "Client not available") ∧
    stepState initState (Event.viewerJoin 5 0 ⟨some "ghost-agent"⟩) = initState :=
  ⟨rfl, rfl, rfl, rfl⟩

/-- C6 amended: every failed join — unknown identifier and offline agent
alike — receives the single acknowledgment `viewer_joined` with
`success: false` and the fixed string `message: "Client not available"`,
with no distinguishing `reason` field, and no viewer or room state is
created. -/
theorem C6_join_failure_reply_uniform (st : ServerState) (sid now : Nat) (cid : String)
    (h : agentOnline st cid = false) :
    stepOuts st (Event.viewerJoin sid now ⟨some cid⟩) =
      [⟨Target.sid sid, "viewer_joined",
        OutPayload.dict [("success", PVal.b false), ("message", PVal.s "Client not available")]⟩] ∧
    joinReplyField st sid now cid "reason" = none ∧
    stepState st (Event.viewerJoin sid now ⟨some cid⟩) = st := by
  have e1 : stepOuts st (Event.viewerJoin sid now ⟨some cid⟩) =
      [⟨Target.sid sid, "viewer_joined",
        OutPayload.dict [("success", PVal.b false),
          ("message", PVal.s "Client not available")]⟩] := by
    simp [stepOuts, step, handle_viewer_join_client, h]
  refine ⟨e1, ?_, ?_⟩
  · simp [joinReplyField, e1, getKey]
  · simp [stepState, step, handle_viewer_join_client, h]

/-- Witness for C6 amended: joining "nobody" at the empty start state. -/
theorem C6_join_failure_reply_uniform_witness :
    joinReplyField initState 8 1 "nobody" "reason" = none :=
  (C6_join_failure_reply_uniform initState 8 1 "nobody" (by decide)).2.1

/-- C8 counterexample: a `mouse_action` without `client_id` and a
`client_register` without `client_id` make the handlers raise a KeyError
(modelled as `Except.error`), so the handlers are not raise-free on
malformed input. -/
theorem C8_counterexample_missing_field_raises :
    handle_mouse_action initState 5 [] = Except.error (Err.keyError "client_id") ∧
    handle_client_register initState 5 0 ⟨none, none⟩ =
      Except.error (Err.keyError "client_id") :=
  ⟨rfl, rfl⟩

/-- C8 amended: on a message missing its required `client_id` field, the
handlers raise a KeyError (they do not silently drop), but the exception
escapes before any mutation, so registry and room state are unchanged. -/
theorem C8_malformed_input_raises_but_preserves_state (st : ServerState) (sid now : Nat)
    (d : Dict)
    (h : getKey d "client_id" = none) :
    handle_mouse_action st sid d = Except.error (Err.keyError "client_id") ∧
    handle_key_action st sid d = Except.error (Err.keyError "client_id") ∧
    handle_save_text st sid d = Except.error (Err.keyError "client_id") ∧
    handle_trigger_human_typing st sid d = Except.error (Err.keyError "client_id") ∧
    handle_viewer_join_client st sid now ⟨none⟩ = Except.error (Err.keyError "client_id") ∧
    handle_client_register st sid now ⟨none, some d⟩ = Except.error (Err.keyError "client_id") ∧
    run st [Event.mouseAction sid d] = st ∧
    run st [Event.keyAction sid d] = st ∧
    run st [Event.viewerJoin sid now ⟨none⟩] = st ∧
    run st [Event.clientRegister sid now ⟨none, some d⟩] = st := by
  refine ⟨?_, ?_, ?_, ?_, rfl, rfl, ?_, ?_, rfl, rfl⟩
  · simp [handle_mouse_action, h]
  · simp [handle_key_action, h]
  · simp [handle_save_text, h]
  · simp [handle_trigger_human_typing, h]
  · exact stepState_mouseAction st sid d
  · exact stepState_keyAction st sid d

/-- Witness for C8 amended: the empty payload has no `client_id`. -/
theorem C8_malformed_input_raises_but_preserves_state_witness :
    handle_mouse_action initState 6 [] = Except.error (Err.keyError "client_id") :=
  (C8_malformed_input_raises_but_preserves_state initState 6 0 [] rfl).1

end Relay

namespace Relay

/-- C2 counterexample: in `exReg` agent "a" is online; a join by a viewer
whose external authentication verdict is `false` nevertheless succeeds,
because the handler performs no authentication check — so "succeeds iff
authenticated AND agent online" is false at this input. -/
theorem C2_counterexample_no_auth_check :
    joinSuccess exReg 7 5 "a" = true ∧
    joinRoom_spec_success false exReg "a" = false :=
  ⟨rfl, rfl⟩

/-- C2 amended: pairing succeeds iff the target agent session exists and is
online at call time — authentication plays no part; on success the viewer
is recorded under its socket with `watching_client` set to the target; on
failure the state is unchanged. -/
theorem C2_join_succeeds_iff_agent_online (st : ServerState) (sid now : Nat) (cid : String) :
    joinSuccess st sid now cid = agentOnline st cid ∧
    (agentOnline st cid = true →
      getKey (stepState st (Event.viewerJoin sid now ⟨some cid⟩)).web_viewers sid =
        some ⟨sid, cid, now⟩) ∧
    (agentOnline st cid = false → stepState st (Event.viewerJoin sid now ⟨some cid⟩) = st) := by
  refine ⟨?_, ?_, ?_⟩
  · cases ho : agentOnline st cid with
    | true => simp [joinSuccess, stepOuts, step, handle_viewer_join_client, ho, getKey]
    | false => simp [joinSuccess, stepOuts, step, handle_viewer_join_client, ho, getKey]
  · intro ho
    have hs : getKey (setKey st.web_viewers sid (ViewerInfo.mk sid cid now)) sid =
        some (ViewerInfo.mk sid cid now) := getKey_setKey_self _ _ _
    simpa [stepState, step, handle_viewer_join_client, ho] using hs
  · intro ho
    simp [stepState, step, handle_viewer_join_client, ho]

/-- Witness for C2 amended: at `exReg`, agent "a" is online and the join
records viewer socket 7. -/
theorem C2_join_succeeds_iff_agent_online_witness :
    joinSuccess exReg 7 5 "a" = agentOnline exReg "a" ∧
    getKey (stepState exReg (Event.viewerJoin 7 5 ⟨some "a"⟩)).web_viewers 7 =
      some ⟨7, "a", 5⟩ :=
  ⟨(C2_join_succeeds_iff_agent_online exReg 7 5 "a").1,
   (C2_join_succeeds_iff_agent_online exReg 7 5 "a").2.1 (by decide)⟩

/-- C3 counterexample: after agent "pc" disconnects (it is offline in
`c3St`), a `screen_frame_from_client` bearing its identifier is still
delivered to the viewer on socket 2 that remains in the room — the relay
after the disconnect event is not a no-op. -/
theorem C3_counterexample_frame_delivered_after_disconnect :
    agentOnline c3St "pc" = false ∧
    stepOuts c3St (Event.screenFrame 9 msgPC) =
      [⟨Target.sid 2, "screen_frame",
        OutPayload.dict [("image", PVal.s "x"), ("dimensions", PVal.null)]⟩] :=
  ⟨rfl, rfl⟩

/-- C3 amended: after an agent is offline, viewer input relays addressed to
it are silently dropped (no delivery), but a frame relay bearing its
identifier is still fanned out to all viewers currently watching it (the
frame handler never consults `online`); every socket-addressed frame
delivery does, however, target only handles currently present in the
viewer registry. -/
theorem C3_input_dropped_frames_still_fan_out (st : ServerState) (sid asid : Nat)
    (cid : String) (d : Dict) (msg : FrameMsg)
    (hoff : agentOnline st cid = false)
    (hd : getKey d "client_id" = some (PVal.s cid))
    (hm : msg.client_id = some cid)
    (hp : msg.preview = none) :
    stepOuts st (Event.mouseAction sid d) = [] ∧
    stepOuts st (Event.keyAction sid d) = [] ∧
    (∀ img, msg.image = some img →
      stepOuts st (Event.screenFrame asid msg) =
        (st.web_viewers.filter (fun p => decide (p.2.watching_client = cid))).map
          (fun p => ⟨Target.sid p.2.socket_id, "screen_frame",
            OutPayload.dict [("image", PVal.s img),
              ("dimensions",
                match msg.dimensions with | some dm => PVal.s dm | none => PVal.null)]⟩)) ∧
    (∀ o, o ∈ stepOuts st (Event.screenFrame asid msg) → ∀ n, o.target = Target.sid n →
      ∃ p, p ∈ st.web_viewers ∧ p.2.socket_id = n ∧ p.2.watching_client = cid) := by
  have hdrop : stepOuts st (Event.mouseAction sid d) = [] := by
    simp only [stepOuts, step, handle_mouse_action, hd]
    cases hc : getKey st.connected_clients cid with
    | none => simp [hc]
    | some info =>
      have hfo : info.online = false := by simpa [agentOnline, hc] using hoff
      simp [hc, hfo]
  have hdropk : stepOuts st (Event.keyAction sid d) = [] := by
    simp only [stepOuts, step, handle_key_action, hd]
    cases hc : getKey st.connected_clients cid with
    | none => simp [hc]
    | some info =>
      have hfo : info.online = false := by simpa [agentOnline, hc] using hoff
      simp [hc, hfo]
  refine ⟨hdrop, hdropk, ?_, ?_⟩
  · intro img himg
    simp [stepOuts, step, handle_screen_frame_from_client, hm, hp, himg, previewOuts, frameOuts]
  · intro o ho n htar
    simp only [stepOuts, step, handle_screen_frame_from_client, hm, hp,
      previewOuts, frameOuts] at ho
    cases hi : msg.image with
    | none => rw [hi] at ho; simp at ho
    | some img =>
      rw [hi] at ho
      simp only [List.nil_append, List.mem_map] at ho
      obtain ⟨p, hpf, hpe⟩ := ho
      obtain ⟨hpv, hdec⟩ := List.mem_filter.mp hpf
      refine ⟨p, hpv, ?_, of_decide_eq_true hdec⟩
      rw [← hpe] at htar
      have hn : p.2.socket_id = n := by simpa using htar
      exact hn
  
/-- Witness for C3 amended: at `c3St` the agent "pc" is offline and a mouse
relay addressed to it delivers nothing. -/
theorem C3_input_dropped_frames_still_fan_out_witness :
    stepOuts c3St (Event.mouseAction 7 dPC) = [] :=
  (C3_input_dropped_frames_still_fan_out c3St 7 9 "pc" dPC msgPC (by decide) rfl rfl rfl).1

end Relay

namespace Relay

theorem mem_agentTargets (st : ServerState) (A : String) (n : Nat) :
    Target.sid n ∈ agentTargets st A →
    ∃ info, getKey st.connected_clients A = some info ∧ info.online = true ∧
      n = info.socket_id := by
  unfold agentTargets
  cases hc : getKey st.connected_clients A with
  | none => intro hn; simp at hn
  | some info =>
    cases ho : info.online with
    | false => intro hn; simp [ho] at hn
    | true => intro hn; simp [ho] at hn; exact ⟨info, rfl, ho, hn⟩

/-- C4: an input event sent by a viewer paired to agent `A` and carrying
`client_id = A` resolves exactly the delivery target of `A`: the single
socket of `A`'s record when `A` is online, nothing when `A` is offline,
and every socket-addressed delivery equals `A`'s own connection handle —
no other agent handle is targeted. -/
theorem C4_input_routed_only_to_target_agent (st : ServerState) (vsid : Nat) (A : String)
    (d : Dict) (v : ViewerInfo)
    (_hv : getKey st.web_viewers vsid = some v)
    (_hw : v.watching_client = A)
    (hd : getKey d "client_id" = some (PVal.s A)) :
    relayTargets (handle_mouse_action st vsid d) = agentTargets st A ∧
    relayTargets (handle_key_action st vsid d) = agentTargets st A ∧
    (agentOnline st A = false → relayTargets (handle_mouse_action st vsid d) = []) ∧
    (∀ n, Target.sid n ∈ relayTargets (handle_mouse_action st vsid d) →
      ∃ info, getKey st.connected_clients A = some info ∧ info.online = true ∧
        n = info.socket_id) := by
  have hmt : relayTargets (handle_mouse_action st vsid d) = agentTargets st A := by
    simp only [relayTargets, handle_mouse_action, agentTargets, hd]
    cases hc : getKey st.connected_clients A with
    | none => simp [hc]
    | some info => cases ho : info.online <;> simp [hc, ho]
  have hkt : relayTargets (handle_key_action st vsid d) = agentTargets st A := by
    simp only [relayTargets, handle_key_action, agentTargets, hd]
    cases hc : getKey st.connected_clients A with
    | none => simp [hc]
    | some info => cases ho : info.online <;> simp [hc, ho]
  refine ⟨hmt, hkt, ?_, ?_⟩
  · intro hoff
    rw [hmt]
    unfold agentTargets
    cases hc : getKey st.connected_clients A with
    | none => rfl
    | some info =>
      have hfo : info.online = false := by simpa [agentOnline, hc] using hoff
      simp [hfo]
  · intro n hn
    rw [hmt] at hn
    exact mem_agentTargets st A n hn

/-- Witness for C4: in `exRegJoin` the viewer on socket 2 watches agent
"a"; a mouse event carrying `client_id = "a"` resolves exactly agent "a"'s
delivery target. -/
theorem C4_input_routed_only_to_target_agent_witness :
    relayTargets (handle_mouse_action exRegJoin 2 dA) = agentTargets exRegJoin "a" :=
  (C4_input_routed_only_to_target_agent exRegJoin 2 "a" dA ⟨2, "a", 1⟩
    (by decide) rfl (by decide)).1

/-- C9: input-event forwarding never reads the sender: for any two sender
sockets the four forwarding handlers produce identical results on the same
payload, and two payloads with the same `client_id` field resolve the same
delivery targets against the same registry state — the outcome is a
function of the payload's `client_id` and that agent's registry entry
only, regardless of whether either sender is a registered or paired
viewer. -/
theorem C9_forwarding_ignores_sender (st : ServerState) (s1 s2 : Nat) (d d2 : Dict)
    (h : getKey d "client_id" = getKey d2 "client_id") :
    handle_mouse_action st s1 d = handle_mouse_action st s2 d ∧
    handle_key_action st s1 d = handle_key_action st s2 d ∧
    handle_save_text st s1 d = handle_save_text st s2 d ∧
    handle_trigger_human_typing st s1 d = handle_trigger_human_typing st s2 d ∧
    relayTargets (handle_mouse_action st s1 d) = relayTargets (handle_mouse_action st s2 d2) := by
  refine ⟨rfl, rfl, rfl, rfl, ?_⟩
  simp only [relayTargets, handle_mouse_action, h]
  cases hg : getKey d2 "client_id" with
  | none => rfl
  | some v =>
    cases v with
    | s cid =>
      cases hc : getKey st.connected_clients cid with
      | none => simp [hc]
      | some info => cases ho : info.online <;> simp [hc, ho]
    | b x => rfl
    | n x => rfl
    | null => rfl

/-- Witness for C9: two different sender sockets, same payload. -/
theorem C9_forwarding_ignores_sender_witness :
    relayTargets (handle_mouse_action exRegJoin 4 dA) =
      relayTargets (handle_mouse_action exRegJoin 5 dA) :=
  (C9_forwarding_ignores_sender exRegJoin 4 5 dA dA rfl).2.2.2.2

end Relay
